import Mathlib

/-!
Verification development for the palletizer Go client (`pkg/client/client.go`).

The client is a thin typed HTTP wrapper: it marshals a `PackingRequest` to
JSON, POSTs it, reads the response body, unmarshals it into a
`PackingResponse`, and checks the HTTP status.  We embed the data model,
the JSON encoding/decoding of these concrete types (mirroring Go
`encoding/json` semantics on them: struct fields emitted in declaration
order under their tag names; on decode, missing fields and JSON `null`
leave the zero value, unknown fields are ignored, and a type mismatch is
an error), and the control flow of `Pack`.  Go `float64` values are
embedded as exact rationals (`ℚ`) and Go `int` as `Int`.

The server-side placement engine is not part of this repository; for the
claims that concern it, it is modelled from the specification text (see
the `Engine` section below).
-/

/-- A JSON value, as produced by parsing a response body or by marshalling a
request.  Numbers are exact rationals; an object is an ordered list of
key/value pairs. -/
inductive Json where
  | null : Json
  | bool : Bool → Json
  | num : ℚ → Json
  | str : String → Json
  | arr : List Json → Json
  | obj : List (String × Json) → Json

namespace Json

/-- Keys of an object, in order; `[]` for non-objects. -/
def objKeys : Json → List String
  | .obj fields => fields.map Prod.fst
  | _ => []

/-- Field lookup in an object with `encoding/json` duplicate-key semantics
(the last occurrence wins); `none` for a missing key or a non-object. -/
def getField (j : Json) (name : String) : Option Json :=
  match j with
  | .obj fields => (fields.reverse.find? (fun p => p.1 = name)).map Prod.snd
  | _ => none

end Json

/-! ## Data model (struct types of `client.go`) -/

/-- `Carton` from `client.go`: a carton to be packed.  JSON tags:
`id`, `length`, `width`, `height`, `weight`, `quantity`, `fragile`,
`allow_rotation`. -/
structure Carton where
  ID : String
  Length : ℚ
  Width : ℚ
  Height : ℚ
  Weight : ℚ
  Quantity : Int
  Fragile : Bool
  AllowRotation : Bool
deriving DecidableEq

/-- `PalletConstraints` from `client.go`. -/
structure PalletConstraints where
  MaxLength : ℚ
  MaxWidth : ℚ
  MaxHeight : ℚ
  MaxWeight : ℚ
deriving DecidableEq

/-- `PackingOptions` from `client.go`. -/
structure PackingOptions where
  SupportPercentage : ℚ
deriving DecidableEq

/-- `PackingRequest` from `client.go`. -/
structure PackingRequest where
  Cartons : List Carton
  PalletConstraints : PalletConstraints
  PackingOptions : PackingOptions
deriving DecidableEq

/-- `Point3D` from `client.go`. -/
structure Point3D where
  X : ℚ
  Y : ℚ
  Z : ℚ
deriving DecidableEq

/-- `Dimensions` from `client.go`. -/
structure Dimensions where
  Length : ℚ
  Width : ℚ
  Height : ℚ
deriving DecidableEq

/-- `PlacedCarton` from `client.go`. -/
structure PlacedCarton where
  CartonID : String
  Position : Point3D
  Dims : Dimensions
  Orientation : String
  Weight : ℚ
deriving DecidableEq

/-- `Pallet` from `client.go`. -/
structure Pallet where
  PalletID : Int
  TotalWeight : ℚ
  TotalHeight : ℚ
  UtilizationPercentage : ℚ
  Cartons : List PlacedCarton
  CenterOfGravity : Point3D
deriving DecidableEq

/-- `PackingSummary` from `client.go`. -/
structure PackingSummary where
  TotalPallets : Int
  TotalCartonsPacked : Int
  AverageUtilization : ℚ
  ComputationTimeMs : Int
deriving DecidableEq

/-- `PackingResponse` from `client.go`. -/
structure PackingResponse where
  Pallets : List Pallet
  Summary : PackingSummary
  Error : String
deriving DecidableEq

/-! Zero values of the Go structs (a fresh `var response PackingResponse`). -/

/-- Go zero value of `Point3D`. -/
def Point3D.zero : Point3D := ⟨0, 0, 0⟩

/-- Go zero value of `Dimensions`. -/
def Dimensions.zero : Dimensions := ⟨0, 0, 0⟩

/-- Go zero value of `PlacedCarton`. -/
def PlacedCarton.zero : PlacedCarton := ⟨"", Point3D.zero, Dimensions.zero, "", 0⟩

/-- Go zero value of `Pallet`. -/
def Pallet.zero : Pallet := ⟨0, 0, 0, 0, [], Point3D.zero⟩

/-- Go zero value of `PackingSummary`. -/
def PackingSummary.zero : PackingSummary := ⟨0, 0, 0, 0⟩

/-- Go zero value of `PackingResponse`. -/
def PackingResponse.zero : PackingResponse := ⟨[], PackingSummary.zero, ""⟩

/-! ## Unit conversions and pallet presets (`client.go` lines 261-299),
with `float64` constants embedded as exact rationals. -/

/-- `InchesToMM` converts inches to millimeters (`inches * 25.4`). -/
def InchesToMM (inches : ℚ) : ℚ := inches * (254 / 10)

/-- `PoundsToGrams` converts pounds to grams (`pounds * 453.592`). -/
def PoundsToGrams (pounds : ℚ) : ℚ := pounds * (453592 / 1000)

/-- `MMToInches` converts millimeters to inches (`mm / 25.4`). -/
def MMToInches (mm : ℚ) : ℚ := mm / (254 / 10)

/-- `GramsToPounds` converts grams to pounds (`grams / 453.592`). -/
def GramsToPounds (grams : ℚ) : ℚ := grams / (453592 / 1000)

/-- `StandardPallet` returns constraints for a standard 40x72x48 inch pallet
(1500 lbs): literals `1016.0`, `1828.8`, `1219.2`, `680388.0`. -/
def StandardPallet : PalletConstraints :=
  { MaxLength := 1016
    MaxWidth := 18288 / 10
    MaxHeight := 12192 / 10
    MaxWeight := 680388 }

/-- `StandardPallet4048` returns constraints for a 40x48x48 inch pallet
(1500 lbs): literals `1016.0`, `1219.2`, `1219.2`, `680388.0`. -/
def StandardPallet4048 : PalletConstraints :=
  { MaxLength := 1016
    MaxWidth := 12192 / 10
    MaxHeight := 12192 / 10
    MaxWeight := 680388 }

/-! ## Request marshalling (`json.Marshal` on the request types)

`encoding/json` emits struct fields in declaration order under their tag
names; none of the request types contains a map or anything whose
serialization could fail, so marshalling is a total function. -/

/-- JSON encoding of a `Carton`, with the struct tags of `client.go`. -/
def cartonToJson (c : Carton) : Json :=
  .obj [("id", .str c.ID),
        ("length", .num c.Length),
        ("width", .num c.Width),
        ("height", .num c.Height),
        ("weight", .num c.Weight),
        ("quantity", .num (c.Quantity : ℚ)),
        ("fragile", .bool c.Fragile),
        ("allow_rotation", .bool c.AllowRotation)]

/-- JSON encoding of `PalletConstraints`, with the struct tags of
`client.go`. -/
def palletConstraintsToJson (p : PalletConstraints) : Json :=
  .obj [("max_length", .num p.MaxLength),
        ("max_width", .num p.MaxWidth),
        ("max_height", .num p.MaxHeight),
        ("max_weight", .num p.MaxWeight)]

/-- JSON encoding of `PackingOptions`, with the struct tag of `client.go`. -/
def packingOptionsToJson (o : PackingOptions) : Json :=
  .obj [("support_percentage", .num o.SupportPercentage)]

/-- JSON encoding of a `PackingRequest`, with the struct tags of
`client.go`. -/
def packingRequestToJson (r : PackingRequest) : Json :=
  .obj [("cartons", .arr (r.Cartons.map cartonToJson)),
        ("pallet_constraints", palletConstraintsToJson r.PalletConstraints),
        ("packing_options", packingOptionsToJson r.PackingOptions)]

/-- Rendering of an exact rational JSON number to text.  Deterministic
stand-in for Go's shortest-decimal `float64` formatting, which is likewise
a pure function of the numeric value. -/
def renderNum (q : ℚ) : String :=
  if q.den = 1 then toString q.num
  else toString q.num ++ "/" ++ toString (q.den : Int)

mutual

/-- Textual rendering of a JSON value: the byte string handed to the HTTP
request.  Syntax is standard JSON; string escaping beyond the quotes is
elided (no request field produced by the client needs it). -/
def renderJson : Json → String
  | .null => "null"
  | .bool b => if b then "true" else "false"
  | .num q => renderNum q
  | .str s => "\"" ++ s ++ "\""
  | .arr xs => "[" ++ renderJsonList xs ++ "]"
  | .obj fs => "\x7b" ++ renderJsonFields fs ++ "\x7d"

/-- Comma-separated rendering of array elements. -/
def renderJsonList : List Json → String
  | [] => ""
  | [x] => renderJson x
  | x :: y :: xs => renderJson x ++ "," ++ renderJsonList (y :: xs)

/-- Comma-separated rendering of object fields. -/
def renderJsonFields : List (String × Json) → String
  | [] => ""
  | [(k, v)] => "\"" ++ k ++ "\":" ++ renderJson v
  | (k, v) :: f :: fs => "\"" ++ k ++ "\":" ++ renderJson v ++ "," ++ renderJsonFields (f :: fs)

end

/-- The request body `Pack` transmits: `jsonData, _ := json.Marshal(request)`
(line 174), handed to `http.NewRequestWithContext` (line 179). -/
def sentBody (r : PackingRequest) : String :=
  renderJson (packingRequestToJson r)

/-! ## Response unmarshalling (`json.Unmarshal` into `PackingResponse`)

Semantics of `encoding/json` on these concrete types: a missing field or a
JSON `null` leaves the Go zero value; unknown fields are ignored; a value
of the wrong JSON kind is an error; a whole struct decoded from `null` is
the zero struct; a slice decoded from `null` is nil.  A number decodes
into a Go `int` only when integral (Go inspects the literal text; the
exact-rational integrality test stands in for that). -/

/-- Decode a JSON value into a `float64` field. -/
def decodeNum : Json → Option ℚ
  | .num q => some q
  | _ => none

/-- Decode a JSON value into an `int` field. -/
def decodeInt : Json → Option Int
  | .num q => if q.den = 1 then some q.num else none
  | _ => none

/-- Decode a JSON value into a `string` field. -/
def decodeStr : Json → Option String
  | .str s => some s
  | _ => none

/-- Decode a struct field: absent or `null` yields the zero value `dflt`,
otherwise the field decoder applies. -/
def decodeFieldD {α : Type} (j : Json) (name : String) (dflt : α)
    (dec : Json → Option α) : Option α :=
  match j.getField name with
  | none => some dflt
  | some .null => some dflt
  | some v => dec v

/-- Decode a JSON value into a slice field (`null` gives the nil slice). -/
def decodeListWith {α : Type} (dec : Json → Option α) : Json → Option (List α)
  | .null => some []
  | .arr xs => xs.mapM dec
  | _ => none

/-- Decode a `Point3D`. -/
def decodePoint3D (j : Json) : Option Point3D :=
  match j with
  | .null => some Point3D.zero
  | .obj _ => do
      let x ← decodeFieldD j "x" 0 decodeNum
      let y ← decodeFieldD j "y" 0 decodeNum
      let z ← decodeFieldD j "z" 0 decodeNum
      some ⟨x, y, z⟩
  | _ => none

/-- Decode a `Dimensions`. -/
def decodeDimensions (j : Json) : Option Dimensions :=
  match j with
  | .null => some Dimensions.zero
  | .obj _ => do
      let l ← decodeFieldD j "length" 0 decodeNum
      let w ← decodeFieldD j "width" 0 decodeNum
      let h ← decodeFieldD j "height" 0 decodeNum
      some ⟨l, w, h⟩
  | _ => none

/-- Decode a `PlacedCarton`, reading the struct tags of `client.go`. -/
def decodePlacedCarton (j : Json) : Option PlacedCarton :=
  match j with
  | .null => some PlacedCarton.zero
  | .obj _ => do
      let cid ← decodeFieldD j "carton_id" "" decodeStr
      let pos ← decodeFieldD j "position" Point3D.zero decodePoint3D
      let dims ← decodeFieldD j "dimensions" Dimensions.zero decodeDimensions
      let orient ← decodeFieldD j "orientation" "" decodeStr
      let wt ← decodeFieldD j "weight" 0 decodeNum
      some ⟨cid, pos, dims, orient, wt⟩
  | _ => none

/-- Decode a `Pallet`, reading the struct tags of `client.go`:
`pallet_id`, `total_weight`, `total_height`, `utilization_percentage`,
`cartons`, `center_of_gravity`. -/
def decodePallet (j : Json) : Option Pallet :=
  match j with
  | .null => some Pallet.zero
  | .obj _ => do
      let pid ← decodeFieldD j "pallet_id" 0 decodeInt
      let tw ← decodeFieldD j "total_weight" 0 decodeNum
      let th ← decodeFieldD j "total_height" 0 decodeNum
      let up ← decodeFieldD j "utilization_percentage" 0 decodeNum
      let cs ← decodeFieldD j "cartons" [] (decodeListWith decodePlacedCarton)
      let cog ← decodeFieldD j "center_of_gravity" Point3D.zero decodePoint3D
      some ⟨pid, tw, th, up, cs, cog⟩
  | _ => none

/-- Decode a `PackingSummary`, reading the struct tags of `client.go`. -/
def decodeSummary (j : Json) : Option PackingSummary :=
  match j with
  | .null => some PackingSummary.zero
  | .obj _ => do
      let tp ← decodeFieldD j "total_pallets" 0 decodeInt
      let tc ← decodeFieldD j "total_cartons_packed" 0 decodeInt
      let au ← decodeFieldD j "average_utilization" 0 decodeNum
      let ct ← decodeFieldD j "computation_time_ms" 0 decodeInt
      some ⟨tp, tc, au, ct⟩
  | _ => none

/-- Decode a `PackingResponse`, reading the struct tags of `client.go`:
`pallets`, `summary`, `error`. -/
def decodePackingResponse (j : Json) : Option PackingResponse :=
  match j with
  | .null => some PackingResponse.zero
  | .obj _ => do
      let ps ← decodeFieldD j "pallets" [] (decodeListWith decodePallet)
      let sm ← decodeFieldD j "summary" PackingSummary.zero decodeSummary
      let er ← decodeFieldD j "error" "" decodeStr
      some ⟨ps, sm, er⟩
  | _ => none

/-! ## The `Pack` method (`client.go` lines 173-209)

`Pack` marshals the request (cannot fail on these types), builds the HTTP
request, performs the exchange, reads the body, unmarshals it, and only
then checks the status code.  The network is an input: an `Exchange` value
describes what `httpClient.Do` and `io.ReadAll` produced.  A body that was
read successfully is carried both as raw text (used verbatim in the
status-line error message) and as its parse result, `some` JSON value when
the text is syntactically valid JSON and `none` otherwise. -/

/-- Outcome of the HTTP exchange as seen by `Pack`: `sendError` when
`httpClient.Do` returns an error (`ctxCancelled` marks a context
cancellation as the cause), `readError` when `io.ReadAll` fails, and
`gotBody` when a body was read. -/
inductive Exchange where
  | sendError (ctxCancelled : Bool)
  | readError (status : Nat)
  | gotBody (status : Nat) (text : String) (parsed : Option Json)

/-- The error cases of `Pack`, one per `return nil, fmt.Errorf(...)` site:
request-creation failure (line 181), transport failure wrapping the
`Do` error — a context cancellation included — (line 187), body-read
failure (line 193), unmarshal failure (line 198), and the two non-200
branches (lines 203 and 205). -/
inductive PackError where
  | createRequestFailed
  | sendFailed (ctxCancelled : Bool)
  | readFailed
  | parseFailed
  | apiErrorMsg (status : Nat) (msg : String)
  | apiStatus (status : Nat) (body : String)
deriving DecidableEq

/-- `Pack`, returning the Go pair `(*PackingResponse, error)` as
`(Option PackingResponse, Option PackError)`. -/
def Pack (req : PackingRequest) (newRequestErr : Bool) (ex : Exchange) :
    Option PackingResponse × Option PackError :=
  have _jsonData := sentBody req
  if newRequestErr then (none, some .createRequestFailed)
  else
    match ex with
    | .sendError c => (none, some (.sendFailed c))
    | .readError _ => (none, some .readFailed)
    | .gotBody status text parsed =>
      match parsed.bind decodePackingResponse with
      | none => (none, some .parseFailed)
      | some response =>
        if status ≠ 200 then
          if response.Error ≠ "" then (none, some (.apiErrorMsg status response.Error))
          else (none, some (.apiStatus status text))
        else (some response, none)

/-! ## The server-side placement engine

Modelled from the spec: the packing computation happens on a server whose
code is not in this repository; the definitions in this namespace follow
the spec's component design — carton normalizer (quantity expansion and
per-spec validation), orientation generator (6 axis permutations when
rotation is allowed, duplicates collapsed), placement engine (deterministic
deepest-bottom-left anchor iteration, first candidate passing the
bounds/weight/overlap/support checks is committed, consumed anchor removed
and the placed carton's top-face corners added, new pallet opened when
nothing fits), and support validator (base-footprint overlap ratio, floor
placements implicitly fully supported).  Carton processing keeps input
order: the spec leaves the sort/tie-break policy as an implementation
choice and requires only determinism. -/

namespace Engine

/-- One physical carton unit after quantity expansion (`CartonInstance`). -/
structure CartonInst where
  instId : String
  l : ℚ
  w : ℚ
  h : ℚ
  weight : ℚ
  fragile : Bool
  allowRotation : Bool
deriving DecidableEq

/-- A committed placement: minimum corner, post-orientation dimensions,
orientation tag, weight. -/
structure Box where
  cartonId : String
  x : ℚ
  y : ℚ
  z : ℚ
  l : ℚ
  w : ℚ
  h : ℚ
  orient : String
  weight : ℚ
deriving DecidableEq

/-- A candidate placement anchor (a free-space position on a pallet). -/
structure Anchor where
  x : ℚ
  y : ℚ
  z : ℚ
deriving DecidableEq

/-- State of one pallet under construction: placed cartons and the open
anchor set. -/
structure PalletSt where
  placed : List Box
  anchors : List Anchor
deriving DecidableEq

/-- The six axis-aligned permutations of the dimension triple, tagged
symbolically; one (original) orientation when rotation is disallowed. -/
def orientTriplesRaw (l w h : ℚ) (allowRotation : Bool) :
    List (String × ℚ × ℚ × ℚ) :=
  if allowRotation then
    [("original", l, w, h), ("rot_lhw", l, h, w), ("rot_wlh", w, l, h),
     ("rot_whl", w, h, l), ("rot_hlw", h, l, w), ("rot_hwl", h, w, l)]
  else [("original", l, w, h)]

/-- Collapse duplicate orientations (equal dimension triples), keeping the
first tag of each. -/
def dedupDims (l : List (String × ℚ × ℚ × ℚ)) : List (String × ℚ × ℚ × ℚ) :=
  go l []
where
  /-- Walk the candidates, skipping any whose dimension triple was already
  seen. -/
  go : List (String × ℚ × ℚ × ℚ) → List (ℚ × ℚ × ℚ) →
      List (String × ℚ × ℚ × ℚ)
  | [], _ => []
  | o :: os, seen =>
    if o.2 ∈ seen then go os seen else o :: go os (o.2 :: seen)

/-- Orientation generator: legal dimension triples of a carton. -/
def orientTriples (l w h : ℚ) (allowRotation : Bool) :
    List (String × ℚ × ℚ × ℚ) :=
  dedupDims (orientTriplesRaw l w h allowRotation)

/-- Orientation candidates of a carton instance, in generator order. -/
def orientationsOf (c : CartonInst) : List (String × ℚ × ℚ × ℚ) :=
  orientTriples c.l c.w c.h c.allowRotation

/-- Two boxes overlap in 3D extent: strict interval overlap on all three
axes. -/
def overlapsB (a b : Box) : Bool :=
  decide (a.x < b.x + b.l) && decide (b.x < a.x + a.l) &&
  decide (a.y < b.y + b.w) && decide (b.y < a.y + a.w) &&
  decide (a.z < b.z + b.h) && decide (b.z < a.z + a.h)

/-- Two boxes are separated on at least one of the three axes. -/
def sepAxis (a b : Box) : Prop :=
  a.x + a.l ≤ b.x ∨ b.x + b.l ≤ a.x ∨
  a.y + a.w ≤ b.y ∨ b.y + b.w ≤ a.y ∨
  a.z + a.h ≤ b.z ∨ b.z + b.h ≤ a.z

instance (a b : Box) : Decidable (sepAxis a b) := by
  unfold sepAxis; infer_instance

/-- Deepest-bottom-left anchor order: lowest Z, then lowest Y, then
lowest X. -/
def anchorLe (a b : Anchor) : Bool :=
  decide (a.z < b.z) ||
  (decide (a.z = b.z) &&
    (decide (a.y < b.y) || (decide (a.y = b.y) && decide (a.x ≤ b.x))))

/-- Insertion step of the deterministic anchor sort. -/
def insertAnchor (a : Anchor) : List Anchor → List Anchor
  | [] => [a]
  | b :: rest => if anchorLe a b then a :: b :: rest else b :: insertAnchor a rest

/-- Deterministic sort of the open anchors (insertion sort by
`anchorLe`). -/
def sortAnchors : List Anchor → List Anchor
  | [] => []
  | a :: rest => insertAnchor a (sortAnchors rest)

/-- Bounds check: the box lies within
`[0, maxLength] × [0, maxWidth] × [0, maxHeight]`. -/
def inBounds (cons : PalletConstraints) (b : Box) : Bool :=
  decide (0 ≤ b.x) && decide (0 ≤ b.y) && decide (0 ≤ b.z) &&
  decide (b.x + b.l ≤ cons.MaxLength) &&
  decide (b.y + b.w ≤ cons.MaxWidth) &&
  decide (b.z + b.h ≤ cons.MaxHeight)

/-- Running total weight of the placed cartons. -/
def palletWeight (placed : List Box) : ℚ :=
  (placed.map Box.weight).sum

/-- Area of the overlap between the footprints of two boxes. -/
def footprintInterArea (p b : Box) : ℚ :=
  max 0 (min (p.x + p.l) (b.x + b.l) - max p.x b.x) *
  max 0 (min (p.y + p.w) (b.y + b.w) - max p.y b.y)

/-- Base support area of a candidate: footprint overlap with the top faces
of placed cartons directly beneath it. -/
def supportArea (placed : List Box) (b : Box) : ℚ :=
  ((placed.filter (fun p => decide (p.z + p.h = b.z))).map
    (fun p => footprintInterArea p b)).sum

/-- Support check: a floor placement is implicitly fully supported;
otherwise the support-area ratio must reach `supportPercentage / 100`. -/
def supportOk (sup : ℚ) (placed : List Box) (b : Box) : Bool :=
  if b.z = 0 then true
  else decide (sup / 100 ≤ supportArea placed b / (b.l * b.w))

/-- The `VALIDATING` step: bounds, pallet weight limit, no overlap with any
placed carton, and support. -/
def validate (cons : PalletConstraints) (sup : ℚ) (placed : List Box)
    (b : Box) : Bool :=
  inBounds cons b &&
  decide (palletWeight placed + b.weight ≤ cons.MaxWeight) &&
  placed.all (fun p => !overlapsB b p) &&
  supportOk sup placed b

/-- Candidate placements of an instance on a pallet: anchors in
deepest-bottom-left order, orientation candidates within each anchor. -/
def candidates (c : CartonInst) (st : PalletSt) : List (Anchor × Box) :=
  (sortAnchors st.anchors).flatMap (fun a =>
    (orientationsOf c).map (fun o =>
      (a, { cartonId := c.instId, x := a.x, y := a.y, z := a.z,
            l := o.2.1, w := o.2.2.1, h := o.2.2.2,
            orient := o.1, weight := c.weight })))

/-- Anchors contributed by a committed placement: the top-front-left corner
of its top face plus the corners along its top edges. -/
def newAnchors (b : Box) : List Anchor :=
  [⟨b.x, b.y, b.z + b.h⟩, ⟨b.x + b.l, b.y, b.z + b.h⟩,
   ⟨b.x, b.y + b.w, b.z + b.h⟩]

/-- Attempt to place one instance on one pallet: the first candidate
passing validation is committed (placed list grows, consumed anchor
removed, top-face anchors added); `none` when no candidate fits. -/
def tryPlace (cons : PalletConstraints) (sup : ℚ) (c : CartonInst)
    (st : PalletSt) : Option PalletSt :=
  match (candidates c st).find? (fun p => validate cons sup st.placed p.2) with
  | none => none
  | some (a, b) =>
      some { placed := b :: st.placed
             anchors := st.anchors.filter (fun x => decide (x ≠ a)) ++ newAnchors b }

/-- A fresh pallet: empty, seeded with the floor-origin anchor. -/
def freshPallet : PalletSt :=
  { placed := [], anchors := [⟨0, 0, 0⟩] }

/-- Try existing pallets in order; the first that accepts the instance is
updated in place. -/
def placeOnFirst (cons : PalletConstraints) (sup : ℚ) (c : CartonInst) :
    List PalletSt → Option (List PalletSt)
  | [] => none
  | st :: rest =>
    match tryPlace cons sup c st with
    | some st2 => some (st2 :: rest)
    | none => (placeOnFirst cons sup c rest).map (st :: ·)

/-- Place one instance: first fitting existing pallet, else a newly opened
pallet; an instance fitting nowhere is reported (`CapacityExhausted`) and
the run continues. -/
def placeInstance (cons : PalletConstraints) (sup : ℚ)
    (pallets : List PalletSt) (c : CartonInst) : List PalletSt :=
  match placeOnFirst cons sup c pallets with
  | some ps => ps
  | none =>
    match tryPlace cons sup c freshPallet with
    | some st => pallets ++ [st]
    | none => pallets

/-- Carton normalizer validation: positive dimensions, weight and quantity,
weight within the pallet limit, and some orientation fitting the empty
pallet. -/
def validSpec (cons : PalletConstraints) (s : Carton) : Bool :=
  decide (0 < s.Length) && decide (0 < s.Width) && decide (0 < s.Height) &&
  decide (0 < s.Weight) && decide (0 < s.Quantity) &&
  decide (s.Weight ≤ cons.MaxWeight) &&
  (orientTriples s.Length s.Width s.Height s.AllowRotation).any (fun o =>
    decide (o.2.1 ≤ cons.MaxLength) && decide (o.2.2.1 ≤ cons.MaxWidth) &&
    decide (o.2.2.2 ≤ cons.MaxHeight))

/-- Quantity expansion: spec `id` plus 1-based index gives the instance
id. -/
def expand (specs : List Carton) : List CartonInst :=
  specs.flatMap (fun s =>
    (List.range s.Quantity.toNat).map (fun i =>
      { instId := s.ID ++ "_" ++ toString (i + 1), l := s.Length,
        w := s.Width, h := s.Height, weight := s.Weight,
        fragile := s.Fragile, allowRotation := s.AllowRotation }))

/-- A full packing run: normalize, expand, then place each instance in
order starting from no pallets. -/
def run (cons : PalletConstraints) (opts : PackingOptions)
    (specs : List Carton) : List PalletSt :=
  (expand (specs.filter (validSpec cons))).foldl
    (placeInstance cons opts.SupportPercentage) []

/-- Two placements are disjoint: they do not overlap in 3D extent, and are
separated on at least one axis. -/
def disjointPair (a b : Box) : Prop :=
  overlapsB a b = false ∧ sepAxis a b

end Engine

/-! ## Concrete sample values used by witnesses and counterexamples -/

/-- A sample carton (a 100mm cube of 1g). -/
def sampleCarton : Carton :=
  { ID := "BOX1", Length := 100, Width := 100, Height := 100, Weight := 1,
    Quantity := 1, Fragile := false, AllowRotation := false }

/-- A sample request around `sampleCarton`. -/
def sampleRequest : PackingRequest :=
  { Cartons := [sampleCarton], PalletConstraints := StandardPallet,
    PackingOptions := ⟨80⟩ }

/-- A minimal pallet object in a server response body. -/
def palletJson1 : Json := .obj [("pallet_id", .num 1)]

/-- The pallet `palletJson1` decodes to. -/
def pallet1 : Pallet := ⟨1, 0, 0, 0, [], Point3D.zero⟩

/-- A server response body carrying one pallet together with a non-empty
error string (a partial failure). -/
def errBodyJson : Json :=
  .obj [("pallets", .arr [palletJson1]), ("error", .str "partial failure")]

/-- The response `errBodyJson` decodes to. -/
def errResp : PackingResponse :=
  ⟨[pallet1], PackingSummary.zero, "partial failure"⟩

/-! ## Theorems -/

/-- C8: each unit-conversion pair is a mutual inverse over exact rational
arithmetic: `MMToInches` inverts `InchesToMM` and conversely, and
`GramsToPounds` inverts `PoundsToGrams` and conversely. -/
theorem conversions_mutual_inverses (x : ℚ) :
    MMToInches (InchesToMM x) = x ∧ InchesToMM (MMToInches x) = x ∧
    GramsToPounds (PoundsToGrams x) = x ∧ PoundsToGrams (GramsToPounds x) = x := by
  unfold MMToInches InchesToMM GramsToPounds PoundsToGrams
  refine ⟨?_, ?_, ?_, ?_⟩ <;> field_simp

/-- C9: `StandardPallet` is exactly the package's own conversions applied
to 40, 72, 48 inches and 1500 lbs — 1016.0, 1828.8, 1219.2 and 680388.0 —
and `StandardPallet4048` agrees except `MaxWidth = InchesToMM 48 =
1219.2`. -/
theorem standard_pallets_consistent_with_conversions :
    StandardPallet =
      { MaxLength := InchesToMM 40, MaxWidth := InchesToMM 72,
        MaxHeight := InchesToMM 48, MaxWeight := PoundsToGrams 1500 } ∧
    InchesToMM 40 = 1016 ∧ InchesToMM 72 = 18288 / 10 ∧
    InchesToMM 48 = 12192 / 10 ∧ PoundsToGrams 1500 = 680388 ∧
    StandardPallet4048 =
      { MaxLength := InchesToMM 40, MaxWidth := InchesToMM 48,
        MaxHeight := InchesToMM 48, MaxWeight := PoundsToGrams 1500 } := by
  refine ⟨?_, by norm_num [InchesToMM], by norm_num [InchesToMM],
          by norm_num [InchesToMM], by norm_num [PoundsToGrams], ?_⟩ <;>
    simp [StandardPallet, StandardPallet4048, InchesToMM, PoundsToGrams] <;>
    norm_num

/-- C4: when the context is cancelled before the HTTP exchange completes,
`httpClient.Do` fails with the cancellation and `Pack` returns a nil
response together with a non-nil error wrapping it — never a partial
result. -/
theorem pack_cancellation_nil_response (req : PackingRequest) :
    (Pack req false (.sendError true)).1 = none ∧
    (Pack req false (.sendError true)).2 = some (.sendFailed true) :=
  ⟨rfl, rfl⟩

/-- C6: request serialization is a deterministic pure function of the
request value (struct fields in declaration order, no unordered
iteration): equal requests produce byte-for-byte identical bodies. -/
theorem sentBody_deterministic (r1 r2 : PackingRequest) (h : r1 = r2) :
    sentBody r1 = sentBody r2 := by
  rw [h]

/-- Witness for C6 at a concrete request. -/
theorem sentBody_deterministic_witness :
    sentBody sampleRequest = sentBody sampleRequest :=
  sentBody_deterministic sampleRequest sampleRequest rfl

/-- Counterexample to C1: a response body that decodes to a
`PackingResponse` carrying the non-empty error string "partial failure"
and one pallet, delivered with HTTP status 500.  `Pack` returns a nil
response and a Go error (line 203), discarding the pallets — the claim's
"regardless of the HTTP status code" fails. -/
theorem pack_error_status_discards_pallets :
    decodePackingResponse errBodyJson = some errResp ∧
    errResp.Error = "partial failure" ∧ errResp.Pallets = [pallet1] ∧
    Pack sampleRequest false (.gotBody 500 "raw" (some errBodyJson)) =
      (none, some (.apiErrorMsg 500 "partial failure")) ∧
    (Pack sampleRequest false (.gotBody 500 "raw" (some errBodyJson))).1 = none := by
  refine ⟨by decide, rfl, rfl, by decide, by decide⟩

/-- C1 amended: when the HTTP status is 200, a response body decoding to a
`PackingResponse` with a non-empty error string is returned intact to the
caller, error string and pallets together — partial results preserved. -/
theorem pack_status_200_preserves_error_and_pallets
    (req : PackingRequest) (text : String) (j : Json) (resp : PackingResponse)
    (hdec : decodePackingResponse j = some resp) (_herr : resp.Error ≠ "") :
    Pack req false (.gotBody 200 text (some j)) = (some resp, none) := by
  simp [Pack, hdec]

/-- Witness for the amended C1 at a concrete body. -/
theorem pack_status_200_preserves_error_and_pallets_witness :
    Pack sampleRequest false (.gotBody 200 "raw" (some errBodyJson)) =
      (some errResp, none) :=
  pack_status_200_preserves_error_and_pallets sampleRequest "raw" errBodyJson
    errResp (by decide) (by decide)

/-- Counterexample to C2: the serialized carton field names carry no unit
suffixes — the keys are `length`, `width`, `height`, `weight`, not
`length_mm`, `width_mm`, `height_mm`, `weight_g` — and pallet decoding
reads `total_weight`, not `total_weight_g` (a `total_weight_g` field is
ignored and the decoded total weight stays zero). -/
theorem carton_field_names_not_suffixed :
    (cartonToJson sampleCarton).objKeys ≠
      ["id", "length_mm", "width_mm", "height_mm", "weight_g", "quantity",
       "fragile", "allow_rotation"] ∧
    decodePallet (.obj [("pallet_id", .num 1), ("total_weight_g", .num 5)]) =
      some pallet1 ∧ pallet1.TotalWeight = 0 := by
  refine ⟨by decide, by decide, rfl⟩

/-- C2 amended: each carton serializes with exactly the JSON field names
`id`, `length`, `width`, `height`, `weight`, `quantity`, `fragile`,
`allow_rotation` (units live in comments, not in the names), and each
pallet deserializes from exactly `pallet_id`, `total_weight`,
`total_height`, `utilization_percentage`, `cartons`, `center_of_gravity`. -/
theorem carton_and_pallet_field_names (c : Carton) :
    (cartonToJson c).objKeys =
      ["id", "length", "width", "height", "weight", "quantity", "fragile",
       "allow_rotation"] ∧
    decodePallet (.obj [("pallet_id", .num 1), ("total_weight", .num 5),
        ("total_height", .num 7), ("utilization_percentage", .num 50),
        ("cartons", .arr []),
        ("center_of_gravity", .obj [("x", .num 1), ("y", .num 2), ("z", .num 3)])]) =
      some ⟨1, 5, 7, 50, [], ⟨1, 2, 3⟩⟩ := by
  exact ⟨rfl, by decide⟩

/-- The `support_percentage` value the client transmits, read back from
the serialized `packing_options` object of the request body. -/
def sentSupportPercentage (r : PackingRequest) : Option ℚ :=
  ((packingRequestToJson r).getField "packing_options").bind
    (fun j => (j.getField "support_percentage").bind decodeNum)

/-- Counterexample to C5: a request with `SupportPercentage = 150` is
serialized and sent unchanged — the transmitted value lies outside the
contract range 0–100 and `Pack` still completes the exchange instead of
rejecting the request client-side. -/
theorem pack_sends_out_of_range_support :
    sentSupportPercentage ⟨[sampleCarton], StandardPallet, ⟨150⟩⟩ = some 150 ∧
    ¬ (0 ≤ (150 : ℚ) ∧ (150 : ℚ) ≤ 100) ∧
    Pack ⟨[sampleCarton], StandardPallet, ⟨150⟩⟩ false
        (.gotBody 200 "raw" (some .null)) =
      (some PackingResponse.zero, none) := by
  refine ⟨by decide, by decide, by decide⟩

/-- C5 amended: the client performs no range validation: the transmitted
`support_percentage` is exactly the request's `SupportPercentage` value,
whatever it is; the 0–100 range is a documented contract, not enforced
before sending. -/
theorem sent_support_percentage_unvalidated (r : PackingRequest) :
    sentSupportPercentage r = some r.PackingOptions.SupportPercentage := by
  rfl

/-- C3: whenever `Pack` returns a non-nil `PackingResponse`, that value is
exactly the JSON-decoded content of the server's response body — the
client performs no packing computation and never alters, filters, or
reorders the decoded result before returning it. -/
theorem pack_returns_decoded_body_unmodified
    (req : PackingRequest) (nre : Bool) (ex : Exchange) (resp : PackingResponse)
    (h : (Pack req nre ex).1 = some resp) :
    ∃ status text j, ex = .gotBody status text (some j) ∧
      decodePackingResponse j = some resp := by
  unfold Pack at h
  by_cases hn : nre
  · simp [hn] at h
  · simp only [hn, if_false, Bool.false_eq_true] at h
    cases ex with
    | sendError c => simp at h
    | readError s => simp at h
    | gotBody status text parsed =>
      cases parsed with
      | none => simp at h
      | some j =>
        cases hd : decodePackingResponse j with
        | none => simp [hd] at h
        | some r =>
          refine ⟨status, text, j, rfl, ?_⟩
          rw [hd]
          by_cases hs : status = 200
          · subst hs
            simp [hd] at h
            rw [h]
          · by_cases he : r.Error = "" <;> simp [hd, hs, he] at h

/-- Witness for C3 at a concrete body. -/
theorem pack_returns_decoded_body_unmodified_witness :
    ∃ status text j,
      Exchange.gotBody 200 "raw" (some errBodyJson) = .gotBody status text (some j) ∧
      decodePackingResponse j = some errResp :=
  pack_returns_decoded_body_unmodified sampleRequest false
    (.gotBody 200 "raw" (some errBodyJson)) errResp (by decide)

/-- C10: `Pack` returns a non-nil response exactly when it returns a nil
error, and the body is parsed before the status check: whenever the body
fails to decode as a `PackingResponse` — a non-JSON error page included —
`Pack` fails with the parse error, never with a status-code error, even
for a non-200 status. -/
theorem pack_exclusivity_and_parse_precedes_status
    (req : PackingRequest) (nre : Bool) (ex : Exchange)
    (status : Nat) (text : String) (parsed : Option Json)
    (hbad : parsed.bind decodePackingResponse = none) :
    ((Pack req nre ex).1.isSome ↔ (Pack req nre ex).2 = none) ∧
    Pack req false (.gotBody status text parsed) = (none, some .parseFailed) := by
  constructor
  · unfold Pack
    by_cases hn : nre
    · simp [hn]
    · simp only [hn, if_false, Bool.false_eq_true]
      cases ex with
      | sendError c => simp
      | readError s => simp
      | gotBody st tx p =>
        cases hb : p.bind decodePackingResponse with
        | none => simp [hb]
        | some r =>
          simp only [hb]
          by_cases hs : st = 200
          · subst hs; simp
          · by_cases he : r.Error = ""
            · simp [hs, he]
            · simp [hs, he]
  · unfold Pack
    simp [hbad]

/-- Witness for C10: a failed transport on one side, and a non-JSON body
with status 404 yielding the parse error rather than a status error on the
other. -/
theorem pack_exclusivity_and_parse_precedence_witness :
    (((Pack sampleRequest false (.sendError false)).1.isSome ↔
      (Pack sampleRequest false (.sendError false)).2 = none)) ∧
    Pack sampleRequest false (.gotBody 404 "<html>oops</html>" none) =
      (none, some .parseFailed) :=
  pack_exclusivity_and_parse_precedes_status sampleRequest false
    (.sendError false) 404 "<html>oops</html>" none (by decide)

/-! ### The non-overlap invariant of the placement engine (C7) -/

/-- Boxes that do not overlap in 3D extent are separated on at least one
of the three axes. -/
theorem sepAxis_of_not_overlaps (a b : Engine.Box)
    (h : Engine.overlapsB a b = false) : Engine.sepAxis a b := by
  unfold Engine.sepAxis
  rcases le_or_lt (a.x + a.l) b.x with h1 | h1
  · exact Or.inl h1
  rcases le_or_lt (b.x + b.l) a.x with h2 | h2
  · exact Or.inr (Or.inl h2)
  rcases le_or_lt (a.y + a.w) b.y with h3 | h3
  · exact Or.inr (Or.inr (Or.inl h3))
  rcases le_or_lt (b.y + b.w) a.y with h4 | h4
  · exact Or.inr (Or.inr (Or.inr (Or.inl h4)))
  rcases le_or_lt (a.z + a.h) b.z with h5 | h5
  · exact Or.inr (Or.inr (Or.inr (Or.inr (Or.inl h5))))
  rcases le_or_lt (b.z + b.h) a.z with h6 | h6
  · exact Or.inr (Or.inr (Or.inr (Or.inr (Or.inr h6))))
  exfalso
  have hov : Engine.overlapsB a b = true := by
    simp only [Engine.overlapsB, Bool.and_eq_true, decide_eq_true_eq]
    exact ⟨⟨⟨⟨⟨h2, h1⟩, h4⟩, h3⟩, h6⟩, h5⟩
  rw [hov] at h
  exact Bool.noConfusion h

/-- A candidate that passes validation overlaps no placed carton. -/
theorem validate_no_overlap (cons : PalletConstraints) (sup : ℚ)
    (placed : List Engine.Box) (b : Engine.Box)
    (h : Engine.validate cons sup placed b = true) :
    ∀ p ∈ placed, Engine.overlapsB b p = false := by
  intro p hp
  unfold Engine.validate at h
  simp only [Bool.and_eq_true, List.all_eq_true] at h
  have hall := h.1.2 p hp
  simpa using hall

/-- A committed placement preserves pairwise disjointness of the pallet's
placed cartons. -/
theorem tryPlace_pairwise (cons : PalletConstraints) (sup : ℚ)
    (c : Engine.CartonInst) (st st2 : Engine.PalletSt)
    (h : Engine.tryPlace cons sup c st = some st2)
    (hp : st.placed.Pairwise Engine.disjointPair) :
    st2.placed.Pairwise Engine.disjointPair := by
  unfold Engine.tryPlace at h
  cases hfind : (Engine.candidates c st).find?
      (fun p => Engine.validate cons sup st.placed p.2) with
  | none => rw [hfind] at h; exact absurd h (by simp)
  | some ab =>
    obtain ⟨a, b⟩ := ab
    rw [hfind] at h
    have hval : Engine.validate cons sup st.placed b = true := by
      simpa using List.find?_some hfind
    simp only [Option.some.injEq] at h
    subst h
    refine List.Pairwise.cons ?_ hp
    intro p hpm
    have hno := validate_no_overlap cons sup st.placed b hval p hpm
    exact ⟨hno, sepAxis_of_not_overlaps b p hno⟩

/-- Trying the existing pallets in order preserves the per-pallet
invariant. -/
theorem placeOnFirst_pairwise (cons : PalletConstraints) (sup : ℚ)
    (c : Engine.CartonInst) :
    ∀ (ps ps2 : List Engine.PalletSt),
      (∀ st ∈ ps, st.placed.Pairwise Engine.disjointPair) →
      Engine.placeOnFirst cons sup c ps = some ps2 →
      ∀ st ∈ ps2, st.placed.Pairwise Engine.disjointPair := by
  intro ps
  induction ps with
  | nil => intro ps2 _ h; simp [Engine.placeOnFirst] at h
  | cons st rest ih =>
    intro ps2 hinv h
    cases htp : Engine.tryPlace cons sup c st with
    | some stNew =>
      simp only [Engine.placeOnFirst, htp, Option.some.injEq] at h
      subst h
      intro s hs
      rcases List.mem_cons.mp hs with rfl | hmem
      · exact tryPlace_pairwise cons sup c st s htp (hinv st (List.mem_cons_self _ _))
      · exact hinv s (List.mem_cons_of_mem _ hmem)
    | none =>
      simp only [Engine.placeOnFirst, htp, Option.map_eq_some'] at h
      obtain ⟨ps3, h3, rfl⟩ := h
      intro s hs
      rcases List.mem_cons.mp hs with rfl | hmem
      · exact hinv s (List.mem_cons_self _ _)
      · exact ih ps3 (fun t ht => hinv t (List.mem_cons_of_mem _ ht)) h3 s hmem

/-- Placing one instance — on an existing pallet or a newly opened one —
preserves the per-pallet invariant. -/
theorem placeInstance_pairwise (cons : PalletConstraints) (sup : ℚ)
    (ps : List Engine.PalletSt) (c : Engine.CartonInst)
    (hinv : ∀ st ∈ ps, st.placed.Pairwise Engine.disjointPair) :
    ∀ st ∈ Engine.placeInstance cons sup ps c,
      st.placed.Pairwise Engine.disjointPair := by
  intro s hs
  unfold Engine.placeInstance at hs
  cases hpf : Engine.placeOnFirst cons sup c ps with
  | some ps2 =>
    rw [hpf] at hs
    exact placeOnFirst_pairwise cons sup c ps ps2 hinv hpf s hs
  | none =>
    rw [hpf] at hs
    cases htp : Engine.tryPlace cons sup c Engine.freshPallet with
    | some stNew =>
      rw [htp] at hs
      rcases List.mem_append.mp hs with hmem | hmem
      · exact hinv s hmem
      · rw [List.mem_singleton.mp hmem]
        exact tryPlace_pairwise cons sup c Engine.freshPallet stNew htp
          (by simp [Engine.freshPallet])
    | none =>
      rw [htp] at hs
      exact hinv s hs

/-- The whole placement fold preserves the per-pallet invariant. -/
theorem foldl_place_pairwise (cons : PalletConstraints) (sup : ℚ) :
    ∀ (insts : List Engine.CartonInst) (ps : List Engine.PalletSt),
      (∀ st ∈ ps, st.placed.Pairwise Engine.disjointPair) →
      ∀ st ∈ insts.foldl (Engine.placeInstance cons sup) ps,
        st.placed.Pairwise Engine.disjointPair := by
  intro insts
  induction insts with
  | nil => intro ps h; simpa using h
  | cons c rest ih =>
    intro ps h
    rw [List.foldl_cons]
    exact ih _ (placeInstance_pairwise cons sup ps c h)

/-- C7: in every packing run, on every pallet the run produces, no two
placed carton instances occupy overlapping volume — any two placed cartons
are separated on at least one of the three axes.  (Modelled from the spec:
the placement engine lives on the server, outside this repository.) -/
theorem run_pallets_pairwise_disjoint (cons : PalletConstraints)
    (opts : PackingOptions) (specs : List Carton) (st : Engine.PalletSt)
    (hst : st ∈ Engine.run cons opts specs) :
    st.placed.Pairwise Engine.disjointPair := by
  unfold Engine.run at hst
  exact foldl_place_pairwise cons opts.SupportPercentage _ []
    (by simp) st hst

/-- The single pallet produced by a sample run: one cube placed at the
origin. -/
def samplePalletSt : Engine.PalletSt :=
  { placed := [{ cartonId := "BOX1_1", x := 0, y := 0, z := 0, l := 100,
                 w := 100, h := 100, orient := "original", weight := 1 }]
    anchors := [⟨0, 0, 100⟩, ⟨100, 0, 100⟩, ⟨0, 100, 100⟩] }

unseal Rat.add Rat.mul Rat.inv Rat.sub in
/-- Witness for C7 at a concrete run. -/
theorem run_pallets_pairwise_disjoint_witness :
    samplePalletSt ∈ Engine.run StandardPallet ⟨80⟩ [sampleCarton] ∧
    samplePalletSt.placed.Pairwise Engine.disjointPair :=
  ⟨by decide,
   run_pallets_pairwise_disjoint StandardPallet ⟨80⟩ [sampleCarton]
     samplePalletSt (by decide)⟩
